import Mathlib

/-!
Verification of the `lcd1602-utils` display-session controller (`src/lcd.rs`).

The controller capability set (the external `hd44780_driver` handle) and the
delay primitive are modelled as observable events: each command records the
waits it performs and the capability calls it issues, in order, into a trace.
Bus-level failures are injected by an oracle `Beh : Nat → Option Cause`
giving the outcome of the k-th capability call of a run (`none` = success,
`some c` = failure with opaque cause `c`).  Each Rust method of `Lcd` becomes
a Lean function from this oracle and a run state to the updated state and the
method's `Result`.
-/

namespace Lcd1602

/-- Opaque underlying transport/controller failure detail (`hd44780_driver::error::Error`);
never inspected by the core, only passed through. -/
abbrev Cause := Nat

/-- The five-way error classification `LcdError` from `src/lcd.rs`. -/
inductive LcdError
  | ClearError
  | ResetError
  | DisplayError
  | WriteError
  | CursorError
deriving DecidableEq, Repr

/-- Result payload of a failed command: `(LcdError, Error)`. -/
abbrev Err := LcdError × Cause

/-- The `CursorMoveDirection` enum from `src/lcd.rs`. -/
inductive CursorMoveDirection
  | Left
  | Right
deriving DecidableEq, Repr

/-- The `hd44780_driver::Display` mode enum (external collaborator). -/
inductive Display
  | On
  | Off
deriving DecidableEq, Repr

/-- The `hd44780_driver::Cursor` visibility enum (external collaborator). -/
inductive CursorVis
  | Visible
  | Invisible
deriving DecidableEq, Repr

/-- The `hd44780_driver::CursorBlink` enum (external collaborator). -/
inductive CursorBlinkMode
  | On
  | Off
deriving DecidableEq, Repr

/-- The `hd44780_driver::Direction` enum (external collaborator). -/
inductive Direction
  | Left
  | Right
deriving DecidableEq, Repr

/-- One controller capability invocation, with its argument. -/
inductive Cap
  | clear
  | reset
  | set_display (m : Display)
  | set_cursor_pos (p : Nat)
  | set_cursor_visibility (v : CursorVis)
  | set_cursor_blink (b : CursorBlinkMode)
  | shift_cursor (d : Direction)
  | set_autoscroll (b : Bool)
  | write_str (s : String)
  | write_byte (b : Nat)
  | write_bytes (bs : List Nat)
  | write_char (c : Char)
deriving DecidableEq, Repr

/-- An observable step of a run: a timing-gate wait of `ms` milliseconds
(`delay.delay_ms(ms)`) or a controller capability call. -/
inductive Event
  | wait (ms : Nat)
  | call (c : Cap)
deriving DecidableEq, Repr

/-- Failure-injection oracle: outcome of the k-th capability call of the run. -/
abbrev Beh := Nat → Option Cause

/-- Run state: number of capability calls issued so far, and the event trace. -/
structure S where
  idx : Nat
  trace : List Event
deriving DecidableEq, Repr

/-- The state at the start of a run: no calls made, empty trace. -/
def S.init : S := ⟨0, []⟩

/-- Record one timing-gate wait (`self.delay.delay_ms(ms)`). -/
def waitE (s : S) (ms : Nat) : S :=
  { s with trace := s.trace ++ [Event.wait ms] }

/-- Issue one controller capability call: record the event, consult the oracle,
and map a failure to `(tag, cause)` exactly as `map_err(|e| (tag, e))` does. -/
def callCap (beh : Beh) (s : S) (c : Cap) (tag : LcdError) : S × Except Err Unit :=
  (⟨s.idx + 1, s.trace ++ [Event.call c]⟩,
    match beh s.idx with
    | none => Except.ok ()
    | some e => Except.error (tag, e))

/-- Sequencing of two fallible steps: the `?` operator (and the `lcd_try!`
wrapper) — a failure short-circuits, success continues with the new state. -/
def andThen (r : S × Except Err Unit) (k : S → S × Except Err Unit) :
    S × Except Err Unit :=
  match r with
  | (s, Except.ok _) => k s
  | (s, Except.error e) => (s, Except.error e)

/-- The display session `Lcd`: the driver handle and delay are captured by the
oracle/trace model, so the only remaining field is `update_screen_time`. -/
structure Lcd where
  update_screen_time : Nat
deriving DecidableEq, Repr

/-- `Lcd::initialize_lcd` from `src/lcd.rs` lines 78–89: the six `lcd_try!`
steps with the tags exactly as written in the source (note the source tags the
`set_cursor_pos(0)` step with `DisplayError`). -/
def initialize_lcd (beh : Beh) (s : S) : S × Except Err Unit :=
  andThen (callCap beh s Cap.clear LcdError.ClearError) fun s =>
  andThen (callCap beh s Cap.reset LcdError.ResetError) fun s =>
  andThen (callCap beh s (Cap.set_display Display.On) LcdError.DisplayError) fun s =>
  andThen (callCap beh s (Cap.set_cursor_pos 0) LcdError.DisplayError) fun s =>
  andThen (callCap beh s (Cap.set_cursor_visibility CursorVis.Invisible) LcdError.CursorError) fun s =>
  andThen (callCap beh s (Cap.set_cursor_blink CursorBlinkMode.Off) LcdError.CursorError) fun s =>
  (s, Except.ok ())

/-- `Lcd::new` from `src/lcd.rs` lines 50–76: one unconditional
`delay.delay_ms(update_screen_time)`, then the initialization sequence whose
result is only logged (`info!`/`warn!`), then the session struct is returned.
The external `HD44780::new_i2c` transport construction is out of scope. -/
def Lcd.new (beh : Beh) (update_screen_time : Nat) : S × Lcd :=
  let s := waitE S.init update_screen_time
  let r := initialize_lcd beh s
  (r.1, { update_screen_time := update_screen_time })

/-- `Lcd::clear_display` (lines 167–169): no wait, one `clear` call tagged
`ClearError`. -/
def Lcd.clear_display (beh : Beh) (s : S) : S × Except Err Unit :=
  callCap beh s Cap.clear LcdError.ClearError

/-- `Lcd::display_text` (lines 91–101): wait, optional pre-clear via
`self.clear_display().await?`, then `write_str` tagged `WriteError`. -/
def Lcd.display_text (lcd : Lcd) (beh : Beh) (text : String) (clear_display : Bool)
    (s : S) : S × Except Err Unit :=
  let s := waitE s lcd.update_screen_time
  andThen (if clear_display then Lcd.clear_display beh s else (s, Except.ok ())) fun s =>
    callCap beh s (Cap.write_str text) LcdError.WriteError

/-- `Lcd::display_byte` (lines 103–113). -/
def Lcd.display_byte (lcd : Lcd) (beh : Beh) (byte : Nat) (clear_display : Bool)
    (s : S) : S × Except Err Unit :=
  let s := waitE s lcd.update_screen_time
  andThen (if clear_display then Lcd.clear_display beh s else (s, Except.ok ())) fun s =>
    callCap beh s (Cap.write_byte byte) LcdError.WriteError

/-- `Lcd::display_bytes` (lines 115–125). -/
def Lcd.display_bytes (lcd : Lcd) (beh : Beh) (bytes : List Nat) (clear_display : Bool)
    (s : S) : S × Except Err Unit :=
  let s := waitE s lcd.update_screen_time
  andThen (if clear_display then Lcd.clear_display beh s else (s, Except.ok ())) fun s =>
    callCap beh s (Cap.write_bytes bytes) LcdError.WriteError

/-- `Lcd::display_char` (lines 127–137). -/
def Lcd.display_char (lcd : Lcd) (beh : Beh) (ch : Char) (clear_display : Bool)
    (s : S) : S × Except Err Unit :=
  let s := waitE s lcd.update_screen_time
  andThen (if clear_display then Lcd.clear_display beh s else (s, Except.ok ())) fun s =>
    callCap beh s (Cap.write_char ch) LcdError.WriteError

/-- The most-significant-first decimal digit list of a natural number
(empty for 0). -/
def natDigits (n : Nat) : List Nat :=
  if n = 0 then [] else natDigits (n / 10) ++ [n % 10]
decreasing_by exact Nat.div_lt_self (Nat.pos_of_ne_zero (by assumption)) (by norm_num)

/-- Canonical decimal rendering of a natural number. -/
def natFormat (n : Nat) : String :=
  if n = 0 then "0" else String.mk ((natDigits n).map Nat.digitChar)

/-- Modelled from the spec: the external `itoa` integer formatter, an
out-of-scope collaborator the spec describes as a locale-free canonical
decimal formatter ("the formatter's canonical shortest representation is
used as-is"): base-10 digits with no leading zeros and a leading minus sign
exactly for negative values. -/
def itoaFormat (num : Int) : String :=
  if num < 0 then String.mk ('-' :: (natFormat num.natAbs).data)
  else natFormat num.natAbs

/-- Modelled from the spec: the external `ryu` float formatter, an
out-of-scope collaborator producing a shortest round-trip decimal rendering;
its output is never inspected by the core, so any rendering function is
faithful here. -/
def ryuFormat (num : Float) : String := toString num

/-- `Lcd::display_int` (lines 139–151): NO wait, optional pre-clear, then
`write_str(buffer.format(num))` tagged `WriteError`. -/
def Lcd.display_int (lcd : Lcd) (beh : Beh) (num : Int) (clear_display : Bool)
    (s : S) : S × Except Err Unit :=
  andThen (if clear_display then Lcd.clear_display beh s else (s, Except.ok ())) fun s =>
    callCap beh s (Cap.write_str (itoaFormat num)) LcdError.WriteError

/-- `Lcd::display_float` (lines 153–165): NO wait, optional pre-clear, then
`write_str(buffer.format(num))` tagged `WriteError`. -/
def Lcd.display_float (lcd : Lcd) (beh : Beh) (num : Float) (clear_display : Bool)
    (s : S) : S × Except Err Unit :=
  andThen (if clear_display then Lcd.clear_display beh s else (s, Except.ok ())) fun s =>
    callCap beh s (Cap.write_str (ryuFormat num)) LcdError.WriteError

/-- `Lcd::reset_display` (lines 171–174): wait, then `reset` tagged
`ResetError`. -/
def Lcd.reset_display (lcd : Lcd) (beh : Beh) (s : S) : S × Except Err Unit :=
  let s := waitE s lcd.update_screen_time
  callCap beh s Cap.reset LcdError.ResetError

/-- `Lcd::set_display_mode` (lines 176–184): wait, then `set_display` tagged
`DisplayError`. -/
def Lcd.set_display_mode (lcd : Lcd) (beh : Beh) (display_mode : Display)
    (s : S) : S × Except Err Unit :=
  let s := waitE s lcd.update_screen_time
  callCap beh s (Cap.set_display display_mode) LcdError.DisplayError

/-- `Lcd::set_cursor_visibility` (lines 186–197): wait, bool-to-enum mapping,
then `set_cursor_visibility` tagged `CursorError`. -/
def Lcd.set_cursor_visibility (lcd : Lcd) (beh : Beh) (visible : Bool)
    (s : S) : S × Except Err Unit :=
  let s := waitE s lcd.update_screen_time
  let visibillity := if visible then CursorVis.Visible else CursorVis.Invisible
  callCap beh s (Cap.set_cursor_visibility visibillity) LcdError.CursorError

/-- `Lcd::set_cursor_blink` (lines 199–210): wait, bool-to-enum mapping, then
`set_cursor_blink` tagged `CursorError`. -/
def Lcd.set_cursor_blink (lcd : Lcd) (beh : Beh) (blink : Bool)
    (s : S) : S × Except Err Unit :=
  let s := waitE s lcd.update_screen_time
  let cursor_blink := if blink then CursorBlinkMode.On else CursorBlinkMode.Off
  callCap beh s (Cap.set_cursor_blink cursor_blink) LcdError.CursorError

/-- `Lcd::move_cursor_direction` (lines 212–228): NO wait; either branch
issues one `shift_cursor` tagged `CursorError`. -/
def Lcd.move_cursor_direction (beh : Beh) (move_direction : CursorMoveDirection)
    (s : S) : S × Except Err Unit :=
  match move_direction with
  | CursorMoveDirection.Left =>
      callCap beh s (Cap.shift_cursor Direction.Left) LcdError.CursorError
  | CursorMoveDirection.Right =>
      callCap beh s (Cap.shift_cursor Direction.Right) LcdError.CursorError

/-- `Lcd::set_autoscroll` (lines 230–232): NO wait, one `set_autoscroll` call
tagged `CursorError`. -/
def Lcd.set_autoscroll (beh : Beh) (enable : Bool) (s : S) : S × Except Err Unit :=
  callCap beh s (Cap.set_autoscroll enable) LcdError.CursorError

/-- `Lcd::set_cursor_pos` (lines 234–239): wait, then `set_cursor_pos` tagged
`CursorError`. -/
def Lcd.set_cursor_pos (lcd : Lcd) (beh : Beh) (position : Nat)
    (s : S) : S × Except Err Unit :=
  let s := waitE s lcd.update_screen_time
  callCap beh s (Cap.set_cursor_pos position) LcdError.CursorError

/-! ### Trace observations -/

/-- Is this event a timing-gate wait? -/
def isWait : Event → Bool
  | Event.wait _ => true
  | Event.call _ => false

/-- Number of timing-gate waits in a trace. -/
def waitCountOf (t : List Event) : Nat := (t.filter isWait).length

/-- The capability calls of a trace, in order, waits erased. -/
def callsOf (t : List Event) : List Cap :=
  t.filterMap fun e =>
    match e with
    | Event.call c => some c
    | Event.wait _ => none

/-- The six capabilities of the initialization sequence, in source order. -/
def initCaps : List Cap :=
  [Cap.clear, Cap.reset, Cap.set_display Display.On, Cap.set_cursor_pos 0,
   Cap.set_cursor_visibility CursorVis.Invisible,
   Cap.set_cursor_blink CursorBlinkMode.Off]

/-- The error tag each initialization step uses in the source, in step order
(the fourth entry is `DisplayError`, copied verbatim from line 85 of
`src/lcd.rs`). -/
def initTags : List LcdError :=
  [LcdError.ClearError, LcdError.ResetError, LcdError.DisplayError,
   LcdError.DisplayError, LcdError.CursorError, LcdError.CursorError]

/-- The shared body of the six write-family commands after the (possibly
absent) timing-gate wait: optional pre-clear, then the write capability
tagged `WriteError`. -/
def writeCore (beh : Beh) (w : Cap) (clear_display : Bool) (s : S) :
    S × Except Err Unit :=
  andThen (if clear_display then Lcd.clear_display beh s else (s, Except.ok ())) fun s =>
    callCap beh s w LcdError.WriteError

/-- The run `t` extends `s` by exactly one leading timing-gate wait of `u`
milliseconds, with no further wait afterwards. -/
def PreWaitOnce (u : Nat) (s t : S) : Prop :=
  ∃ rest, t.trace = s.trace ++ Event.wait u :: rest ∧ waitCountOf rest = 0

/-- The run `t` extends `s` without performing any timing-gate wait. -/
def NoWait (s t : S) : Prop :=
  ∃ rest, t.trace = s.trace ++ rest ∧ waitCountOf rest = 0

/-- Value of a most-significant-first decimal digit list. -/
def digitsVal (ds : List Nat) : Nat := ds.foldl (fun a d => a * 10 + d) 0

/-- Is this character a decimal digit `'0'..'9'`? -/
def isDigitChar (c : Char) : Bool := 48 ≤ c.toNat && c.toNat ≤ 57

/-- Value of a decimal character list read most-significant-first. -/
def strDecimalVal (l : List Char) : Nat :=
  l.foldl (fun a c => a * 10 + (c.toNat - 48)) 0

/-- `l` is THE canonical decimal rendering of `n`: all characters are digits,
the digits decode to `n`, the list is nonempty, and there is no leading zero
except for the single digit rendering of 0 itself. -/
def natCanonRep (n : Nat) (l : List Char) : Prop :=
  (∀ c ∈ l, isDigitChar c = true) ∧ strDecimalVal l = n ∧ l ≠ [] ∧
    (l.head? = some '0' → l = ['0'])

/-- `str` is the canonical signed decimal rendering of `x`: it starts with
`'-'` exactly when `x` is negative, and the rest is the canonical decimal
rendering of `|x|`. -/
def intCanonical (x : Int) (str : String) : Prop :=
  (str.data.head? = some '-' ↔ x < 0) ∧
  natCanonRep x.natAbs (if x < 0 then str.data.tail else str.data)

/-! ### Computation lemmas for the run model -/

@[simp] theorem waitE_idx (s : S) (u : Nat) : (waitE s u).idx = s.idx := rfl

@[simp] theorem waitE_trace (s : S) (u : Nat) :
    (waitE s u).trace = s.trace ++ [Event.wait u] := rfl

theorem callCap_ok {beh : Beh} {s : S} (c : Cap) (tag : LcdError)
    (h : beh s.idx = none) :
    callCap beh s c tag = (⟨s.idx + 1, s.trace ++ [Event.call c]⟩, Except.ok ()) := by
  simp [callCap, h]

theorem callCap_err {beh : Beh} {s : S} {e : Cause} (c : Cap) (tag : LcdError)
    (h : beh s.idx = some e) :
    callCap beh s c tag =
      (⟨s.idx + 1, s.trace ++ [Event.call c]⟩, Except.error (tag, e)) := by
  simp [callCap, h]

theorem callCap_fst (beh : Beh) (s : S) (c : Cap) (tag : LcdError) :
    (callCap beh s c tag).1 = ⟨s.idx + 1, s.trace ++ [Event.call c]⟩ := rfl

theorem andThen_callCap_ok {beh : Beh} {s : S} (c : Cap) (tag : LcdError)
    (k : S → S × Except Err Unit) (h : beh s.idx = none) :
    andThen (callCap beh s c tag) k = k ⟨s.idx + 1, s.trace ++ [Event.call c]⟩ := by
  simp [andThen, callCap, h]

theorem andThen_callCap_err {beh : Beh} {s : S} {e : Cause} (c : Cap) (tag : LcdError)
    (k : S → S × Except Err Unit) (h : beh s.idx = some e) :
    andThen (callCap beh s c tag) k =
      (⟨s.idx + 1, s.trace ++ [Event.call c]⟩, Except.error (tag, e)) := by
  simp [andThen, callCap, h]

@[simp] theorem callsOf_nil : callsOf [] = [] := rfl

@[simp] theorem callsOf_cons_wait (u : Nat) (t : List Event) :
    callsOf (Event.wait u :: t) = callsOf t := rfl

@[simp] theorem callsOf_cons_call (c : Cap) (t : List Event) :
    callsOf (Event.call c :: t) = c :: callsOf t := rfl

@[simp] theorem callsOf_append (a b : List Event) :
    callsOf (a ++ b) = callsOf a ++ callsOf b := by
  simp [callsOf]

@[simp] theorem waitCountOf_nil : waitCountOf [] = 0 := rfl

@[simp] theorem waitCountOf_cons_wait (u : Nat) (t : List Event) :
    waitCountOf (Event.wait u :: t) = waitCountOf t + 1 := by
  simp [waitCountOf, isWait, List.filter]

@[simp] theorem waitCountOf_cons_call (c : Cap) (t : List Event) :
    waitCountOf (Event.call c :: t) = waitCountOf t := rfl

@[simp] theorem waitCountOf_append (a b : List Event) :
    waitCountOf (a ++ b) = waitCountOf a + waitCountOf b := by
  simp [waitCountOf]

theorem display_text_eq (lcd : Lcd) (beh : Beh) (text : String) (b : Bool) (s : S) :
    Lcd.display_text lcd beh text b s =
      writeCore beh (Cap.write_str text) b (waitE s lcd.update_screen_time) := rfl

theorem display_byte_eq (lcd : Lcd) (beh : Beh) (byte : Nat) (b : Bool) (s : S) :
    Lcd.display_byte lcd beh byte b s =
      writeCore beh (Cap.write_byte byte) b (waitE s lcd.update_screen_time) := rfl

theorem display_bytes_eq (lcd : Lcd) (beh : Beh) (bytes : List Nat) (b : Bool) (s : S) :
    Lcd.display_bytes lcd beh bytes b s =
      writeCore beh (Cap.write_bytes bytes) b (waitE s lcd.update_screen_time) := rfl

theorem display_char_eq (lcd : Lcd) (beh : Beh) (ch : Char) (b : Bool) (s : S) :
    Lcd.display_char lcd beh ch b s =
      writeCore beh (Cap.write_char ch) b (waitE s lcd.update_screen_time) := rfl

theorem display_int_eq (lcd : Lcd) (beh : Beh) (num : Int) (b : Bool) (s : S) :
    Lcd.display_int lcd beh num b s =
      writeCore beh (Cap.write_str (itoaFormat num)) b s := rfl

theorem display_float_eq (lcd : Lcd) (beh : Beh) (num : Float) (b : Bool) (s : S) :
    Lcd.display_float lcd beh num b s =
      writeCore beh (Cap.write_str (ryuFormat num)) b s := rfl

theorem writeCore_false (beh : Beh) (w : Cap) (s : S) :
    writeCore beh w false s = callCap beh s w LcdError.WriteError := rfl

theorem writeCore_true_clear_err {beh : Beh} {s : S} {e : Cause} (w : Cap)
    (h : beh s.idx = some e) :
    writeCore beh w true s =
      (⟨s.idx + 1, s.trace ++ [Event.call Cap.clear]⟩,
        Except.error (LcdError.ClearError, e)) := by
  simp [writeCore, Lcd.clear_display, andThen, callCap, h]

theorem writeCore_true_ok_ok {beh : Beh} {s : S} (w : Cap)
    (h1 : beh s.idx = none) (h2 : beh (s.idx + 1) = none) :
    writeCore beh w true s =
      (⟨s.idx + 2, s.trace ++ [Event.call Cap.clear, Event.call w]⟩,
        Except.ok ()) := by
  simp [writeCore, Lcd.clear_display, andThen, callCap, h1, h2]

theorem writeCore_true_ok_err {beh : Beh} {s : S} {e : Cause} (w : Cap)
    (h1 : beh s.idx = none) (h2 : beh (s.idx + 1) = some e) :
    writeCore beh w true s =
      (⟨s.idx + 2, s.trace ++ [Event.call Cap.clear, Event.call w]⟩,
        Except.error (LcdError.WriteError, e)) := by
  simp [writeCore, Lcd.clear_display, andThen, callCap, h1, h2]

/-! ### Canonical decimal formatting -/

theorem natDigits_zero : natDigits 0 = [] := by
  rw [natDigits]; simp

theorem natDigits_of_ne (n : Nat) (h : n ≠ 0) :
    natDigits n = natDigits (n / 10) ++ [n % 10] := by
  rw [natDigits]; simp [h]

theorem digitsVal_append_single (l : List Nat) (d : Nat) :
    digitsVal (l ++ [d]) = digitsVal l * 10 + d := by
  simp [digitsVal, List.foldl_append]

theorem digitsVal_natDigits (n : Nat) : digitsVal (natDigits n) = n := by
  induction n using Nat.strong_induction_on with
  | _ n ih =>
    by_cases h : n = 0
    · subst h; rw [natDigits_zero]; rfl
    · rw [natDigits_of_ne n h, digitsVal_append_single,
        ih (n / 10) (Nat.div_lt_self (Nat.pos_of_ne_zero h) (by norm_num))]
      omega

theorem natDigits_lt_ten (n : Nat) : ∀ d ∈ natDigits n, d < 10 := by
  induction n using Nat.strong_induction_on with
  | _ n ih =>
    by_cases h : n = 0
    · subst h; rw [natDigits_zero]; simp
    · rw [natDigits_of_ne n h]
      intro d hd
      rcases List.mem_append.mp hd with h1 | h2
      · exact ih (n / 10) (Nat.div_lt_self (Nat.pos_of_ne_zero h) (by norm_num)) d h1
      · simp at h2; subst h2; exact Nat.mod_lt _ (by norm_num)

theorem natDigits_ne_nil (n : Nat) (h : n ≠ 0) : natDigits n ≠ [] := by
  rw [natDigits_of_ne n h]; simp

theorem natDigits_head_ne_zero (n : Nat) (h : n ≠ 0) :
    ∀ d, (natDigits n).head? = some d → d ≠ 0 := by
  induction n using Nat.strong_induction_on with
  | _ n ih =>
    intro d hd
    rw [natDigits_of_ne n h] at hd
    by_cases h10 : n / 10 = 0
    · rw [h10, natDigits_zero] at hd
      simp at hd
      subst hd
      have hn10 : n < 10 := by omega
      rw [Nat.mod_eq_of_lt hn10]; exact h
    · cases hcons : natDigits (n / 10) with
      | nil => exact absurd hcons (natDigits_ne_nil (n / 10) h10)
      | cons a t =>
        rw [hcons] at hd
        simp at hd
        subst hd
        exact ih (n / 10) (Nat.div_lt_self (Nat.pos_of_ne_zero h) (by norm_num)) h10 _
          (by rw [hcons]; rfl)

theorem foldl_digitChar (ds : List Nat) : ∀ a, (∀ d ∈ ds, d < 10) →
    List.foldl (fun a c => a * 10 + (c.toNat - 48)) a (ds.map Nat.digitChar) =
      List.foldl (fun a d => a * 10 + d) a ds := by
  induction ds with
  | nil => intro a _; rfl
  | cons d t iht =>
    intro a h
    have hd10 : d < 10 := h d (by simp)
    have hd : (Nat.digitChar d).toNat = 48 + d := by interval_cases d <;> rfl
    simp only [List.map_cons, List.foldl_cons, hd]
    have harith : a * 10 + (48 + d - 48) = a * 10 + d := by omega
    rw [harith]
    exact iht _ (fun x hx => h x (by simp [hx]))

theorem natFormat_canon (n : Nat) : natCanonRep n (natFormat n).data := by
  by_cases h : n = 0
  · subst h
    refine ⟨?_, ?_, ?_, ?_⟩ <;> simp [natFormat] <;> decide
  · have hdata : (natFormat n).data = (natDigits n).map Nat.digitChar := by
      simp [natFormat, h]
    rw [hdata]
    refine ⟨?_, ?_, ?_, ?_⟩
    · intro c hc
      rcases List.mem_map.mp hc with ⟨d, hd, rfl⟩
      have : d < 10 := natDigits_lt_ten n d hd
      interval_cases d <;> decide
    · rw [strDecimalVal, foldl_digitChar _ 0 (natDigits_lt_ten n)]
      exact digitsVal_natDigits n
    · simp [natDigits_ne_nil n h]
    · intro hhead
      exfalso
      cases hcons : natDigits n with
      | nil => exact natDigits_ne_nil n h hcons
      | cons a t =>
        rw [hcons] at hhead
        simp at hhead
        have ha : a ≠ 0 := natDigits_head_ne_zero n h a (by rw [hcons]; rfl)
        have ha10 : a < 10 := natDigits_lt_ten n a (by rw [hcons]; simp)
        interval_cases a
        all_goals first
          | exact ha rfl
          | exact absurd hhead (by decide)

theorem itoaFormat_canon (x : Int) : intCanonical x (itoaFormat x) := by
  by_cases hx : x < 0
  · have hdata : (itoaFormat x).data = '-' :: (natFormat x.natAbs).data := by
      simp [itoaFormat, hx]
    refine ⟨?_, ?_⟩
    · rw [hdata]; simp [hx]
    · rw [hdata]; simp only [if_pos hx, List.tail_cons]
      exact natFormat_canon _
  · have hdata : (itoaFormat x).data = (natFormat x.natAbs).data := by
      simp [itoaFormat, hx]
    refine ⟨?_, ?_⟩
    · rw [hdata]
      constructor
      · intro hh
        exfalso
        have hmem : '-' ∈ (natFormat x.natAbs).data := by
          cases hc : (natFormat x.natAbs).data with
          | nil => rw [hc] at hh; simp at hh
          | cons a t =>
            rw [hc] at hh
            simp at hh
            subst hh
            exact List.mem_cons_self _ _
        have := (natFormat_canon x.natAbs).1 '-' hmem
        simp [isDigitChar] at this
      · intro hlt; exact absurd hlt hx
    · rw [hdata]; simp only [if_neg hx]
      exact natFormat_canon _

/-! ### Characterization of the initialization sequence -/

theorem callsOf_map_call (l : List Cap) : callsOf (l.map Event.call) = l := by
  induction l with
  | nil => rfl
  | cons c t ih => simpa using ih

theorem waitCountOf_map_call (l : List Cap) : waitCountOf (l.map Event.call) = 0 := by
  induction l with
  | nil => rfl
  | cons c t ih => simpa using ih

theorem initialize_lcd_ok (beh : Beh) (s : S)
    (h : ∀ i, i < 6 → beh (s.idx + i) = none) :
    initialize_lcd beh s =
      (⟨s.idx + 6, s.trace ++ initCaps.map Event.call⟩, Except.ok ()) := by
  have h0 : beh s.idx = none := by simpa using h 0 (by omega)
  have h1 := h 1 (by omega)
  have h2 := h 2 (by omega)
  have h3 := h 3 (by omega)
  have h4 := h 4 (by omega)
  have h5 := h 5 (by omega)
  simp [initialize_lcd, andThen, callCap, h0, h1, h2, h3, h4, h5, initCaps,
    Nat.add_assoc]

theorem initialize_lcd_err (beh : Beh) (s : S) (k : Nat) (c : Cause) (hk : k < 6)
    (hpre : ∀ i, i < k → beh (s.idx + i) = none) (hfail : beh (s.idx + k) = some c) :
    initialize_lcd beh s =
      (⟨s.idx + (k + 1), s.trace ++ (initCaps.take (k + 1)).map Event.call⟩,
        Except.error (initTags.get ⟨k, hk⟩, c)) := by
  interval_cases k
  · have hf : beh s.idx = some c := by simpa using hfail
    simp [initialize_lcd, andThen, callCap, hf, initCaps, initTags]
  · have h0 : beh s.idx = none := by simpa using hpre 0 (by omega)
    simp [initialize_lcd, andThen, callCap, h0, hfail, initCaps, initTags]
  · have h0 : beh s.idx = none := by simpa using hpre 0 (by omega)
    have h1 := hpre 1 (by omega)
    simp [initialize_lcd, andThen, callCap, h0, h1, hfail, initCaps, initTags,
      Nat.add_assoc]
  · have h0 : beh s.idx = none := by simpa using hpre 0 (by omega)
    have h1 := hpre 1 (by omega)
    have h2 := hpre 2 (by omega)
    simp [initialize_lcd, andThen, callCap, h0, h1, h2, hfail, initCaps, initTags,
      Nat.add_assoc] <;> rfl
  · have h0 : beh s.idx = none := by simpa using hpre 0 (by omega)
    have h1 := hpre 1 (by omega)
    have h2 := hpre 2 (by omega)
    have h3 := hpre 3 (by omega)
    simp [initialize_lcd, andThen, callCap, h0, h1, h2, h3, hfail, initCaps, initTags,
      Nat.add_assoc] <;> rfl
  · have h0 : beh s.idx = none := by simpa using hpre 0 (by omega)
    have h1 := hpre 1 (by omega)
    have h2 := hpre 2 (by omega)
    have h3 := hpre 3 (by omega)
    have h4 := hpre 4 (by omega)
    simp [initialize_lcd, andThen, callCap, h0, h1, h2, h3, h4, hfail, initCaps,
      initTags, Nat.add_assoc] <;> rfl

theorem initialize_lcd_trace_shape (beh : Beh) (s : S) :
    ∃ m, 1 ≤ m ∧ m ≤ 6 ∧
      (initialize_lcd beh s).1.trace = s.trace ++ (initCaps.take m).map Event.call := by
  by_cases hall : ∀ i, i < 6 → beh (s.idx + i) = none
  · refine ⟨6, by omega, by omega, ?_⟩
    rw [initialize_lcd_ok beh s hall]
    simp [initCaps]
  · push_neg at hall
    obtain ⟨i0, hi0, hne0⟩ := hall
    have hex : ∃ k, k < 6 ∧ beh (s.idx + k) ≠ none := ⟨i0, hi0, hne0⟩
    obtain ⟨hk6, hkne⟩ := Nat.find_spec hex
    obtain ⟨c, hc⟩ : ∃ c, beh (s.idx + Nat.find hex) = some c := by
      cases hb : beh (s.idx + Nat.find hex) with
      | none => exact absurd hb hkne
      | some c => exact ⟨c, rfl⟩
    have hpre : ∀ i, i < Nat.find hex → beh (s.idx + i) = none := by
      intro i hi
      have hmin := Nat.find_min hex hi
      push_neg at hmin
      exact hmin (by omega)
    refine ⟨Nat.find hex + 1, by omega, by omega, ?_⟩
    rw [initialize_lcd_err beh s (Nat.find hex) c hk6 hpre hc]

/-! ### Shape of the write-family commands -/

theorem writeCore_trace_shape (beh : Beh) (w : Cap) (b : Bool) (s : S) :
    ∃ rest, (writeCore beh w b s).1.trace = s.trace ++ rest ∧ waitCountOf rest = 0 := by
  cases b with
  | false =>
    refine ⟨[Event.call w], ?_, rfl⟩
    rw [writeCore_false]
    rfl
  | true =>
    rcases h : beh s.idx with _ | c
    · rcases h2 : beh (s.idx + 1) with _ | c2
      · refine ⟨[Event.call Cap.clear, Event.call w], ?_, rfl⟩
        rw [writeCore_true_ok_ok w h h2]
      · refine ⟨[Event.call Cap.clear, Event.call w], ?_, rfl⟩
        rw [writeCore_true_ok_err w h h2]
    · refine ⟨[Event.call Cap.clear], ?_, rfl⟩
      rw [writeCore_true_clear_err w h]

theorem preWaitOnce_of_writeCore (u : Nat) (beh : Beh) (w : Cap) (b : Bool) (s : S) :
    PreWaitOnce u s (writeCore beh w b (waitE s u)).1 := by
  obtain ⟨rest, htr, hw⟩ := writeCore_trace_shape beh w b (waitE s u)
  exact ⟨rest, by rw [htr]; simp, hw⟩

theorem preWaitOnce_of_callCap (u : Nat) (beh : Beh) (c : Cap) (tag : LcdError) (s : S) :
    PreWaitOnce u s (callCap beh (waitE s u) c tag).1 :=
  ⟨[Event.call c], by simp [callCap], rfl⟩

theorem noWait_of_writeCore (beh : Beh) (w : Cap) (b : Bool) (s : S) :
    NoWait s (writeCore beh w b s).1 :=
  writeCore_trace_shape beh w b s

theorem noWait_of_callCap (beh : Beh) (c : Cap) (tag : LcdError) (s : S) :
    NoWait s (callCap beh s c tag).1 :=
  ⟨[Event.call c], rfl, rfl⟩

theorem writeCore_calls_true {beh : Beh} {s : S} (w : Cap) (h1 : beh s.idx = none) :
    callsOf (writeCore beh w true s).1.trace = callsOf s.trace ++ [Cap.clear, w] := by
  rcases h2 : beh (s.idx + 1) with _ | c2
  · rw [writeCore_true_ok_ok w h1 h2]; simp
  · rw [writeCore_true_ok_err w h1 h2]; simp

theorem writeCore_calls_false (beh : Beh) (w : Cap) (s : S) :
    callsOf (writeCore beh w false s).1.trace = callsOf s.trace ++ [w] := by
  rw [writeCore_false]; simp [callCap]

theorem callsOf_take_map_call (n : Nat) (l : List Cap) :
    callsOf (List.take n (l.map Event.call)) = l.take n := by
  rw [← List.map_take, callsOf_map_call]

theorem waitCountOf_take_map_call (n : Nat) (l : List Cap) :
    waitCountOf (List.take n (l.map Event.call)) = 0 := by
  rw [← List.map_take, waitCountOf_map_call]

theorem reset_display_eq (lcd : Lcd) (beh : Beh) (s : S) :
    Lcd.reset_display lcd beh s =
      callCap beh (waitE s lcd.update_screen_time) Cap.reset LcdError.ResetError := rfl

theorem set_display_mode_eq (lcd : Lcd) (beh : Beh) (m : Display) (s : S) :
    Lcd.set_display_mode lcd beh m s =
      callCap beh (waitE s lcd.update_screen_time) (Cap.set_display m)
        LcdError.DisplayError := rfl

theorem set_cursor_visibility_eq (lcd : Lcd) (beh : Beh) (visible : Bool) (s : S) :
    Lcd.set_cursor_visibility lcd beh visible s =
      callCap beh (waitE s lcd.update_screen_time)
        (Cap.set_cursor_visibility
          (if visible then CursorVis.Visible else CursorVis.Invisible))
        LcdError.CursorError := rfl

theorem set_cursor_blink_eq (lcd : Lcd) (beh : Beh) (blink : Bool) (s : S) :
    Lcd.set_cursor_blink lcd beh blink s =
      callCap beh (waitE s lcd.update_screen_time)
        (Cap.set_cursor_blink
          (if blink then CursorBlinkMode.On else CursorBlinkMode.Off))
        LcdError.CursorError := rfl

theorem set_cursor_pos_eq (lcd : Lcd) (beh : Beh) (pos : Nat) (s : S) :
    Lcd.set_cursor_pos lcd beh pos s =
      callCap beh (waitE s lcd.update_screen_time) (Cap.set_cursor_pos pos)
        LcdError.CursorError := rfl

theorem set_autoscroll_eq (beh : Beh) (enable : Bool) (s : S) :
    Lcd.set_autoscroll beh enable s =
      callCap beh s (Cap.set_autoscroll enable) LcdError.CursorError := rfl

theorem move_cursor_direction_eq (beh : Beh) (dir : CursorMoveDirection) (s : S) :
    Lcd.move_cursor_direction beh dir s =
      callCap beh s
        (Cap.shift_cursor
          (match dir with
           | CursorMoveDirection.Left => Direction.Left
           | CursorMoveDirection.Right => Direction.Right))
        LcdError.CursorError := by
  cases dir <;> rfl

theorem clear_display_eq (beh : Beh) (s : S) :
    Lcd.clear_display beh s = callCap beh s Cap.clear LcdError.ClearError := rfl

/-! ### Claim theorems -/

/-- C1: the initialization routine run at session construction invokes the
controller capabilities in exactly the order clear, reset, set_display(On),
set_cursor_pos(0), set_cursor_visibility(Invisible), set_cursor_blink(Off);
when every step succeeds all six are invoked in that order, when step k fails
only the first k+1 are invoked (short-circuit), and in every case the
constructor returns the session object. -/
theorem init_sequence_order_and_short_circuit (beh : Beh) (ust : Nat) :
    ((∀ i, i < 6 → beh i = none) →
      callsOf (Lcd.new beh ust).1.trace = initCaps) ∧
    (∀ k c, k < 6 → (∀ i, i < k → beh i = none) → beh k = some c →
      callsOf (Lcd.new beh ust).1.trace = initCaps.take (k + 1)) ∧
    (Lcd.new beh ust).2 = { update_screen_time := ust } := by
  have hnew : (Lcd.new beh ust).1 = (initialize_lcd beh (waitE S.init ust)).1 := rfl
  refine ⟨?_, ?_, rfl⟩
  · intro h
    rw [hnew, initialize_lcd_ok beh (waitE S.init ust)
      (fun i hi => by simpa [waitE, S.init] using h i hi)]
    simp [waitE, S.init, callsOf_map_call]
  · intro k c hk hpre hfail
    rw [hnew, initialize_lcd_err beh (waitE S.init ust) k c hk
      (fun i hi => by simpa [waitE, S.init] using hpre i hi)
      (by simpa [waitE, S.init] using hfail)]
    simp [waitE, S.init, callsOf_map_call, callsOf_take_map_call]

/-- C1 witness: with a controller that fails exactly at the third call, the
constructor issues exactly the first three capabilities; with a controller
that never fails, all six are issued in order. -/
theorem init_sequence_order_and_short_circuit_witness :
    callsOf (Lcd.new (fun i => if i = 2 then some 9 else none) 4).1.trace
        = initCaps.take 3 ∧
    callsOf (Lcd.new (fun _ => none) 4).1.trace = initCaps :=
  ⟨(init_sequence_order_and_short_circuit (fun i => if i = 2 then some 9 else none) 4).2.1
      2 9 (by omega) (fun i hi => by interval_cases i <;> rfl) rfl,
   (init_sequence_order_and_short_circuit (fun _ => none) 4).1 (fun i _ => rfl)⟩

/-- C2 (the code contradicts the claim): when the controller fails exactly at
the fourth initialization step (`set_cursor_pos(0)`), the routine tags the
failure `DisplayError` — not the `CursorError` the §4.3 table assigns to the
set-cursor-pos operation — after invoking exactly the first four capabilities. -/
theorem init_step4_mistag :
    (initialize_lcd (fun i => if i = 3 then some 7 else none) (waitE S.init 5)).2
        = Except.error (LcdError.DisplayError, 7) ∧
    callsOf (initialize_lcd (fun i => if i = 3 then some 7 else none)
        (waitE S.init 5)).1.trace = initCaps.take 4 ∧
    LcdError.DisplayError ≠ LcdError.CursorError :=
  ⟨rfl, rfl, by decide⟩

/-- C3: pre-wait table conformance. Each command marked "pre-wait: yes"
(display text/byte/bytes/char, reset display, set display mode, set cursor
visibility, set cursor blink, set cursor position) performs exactly one
timing-gate wait of `update_screen_time` ms before any capability call; each
command marked "no" (display int, display float, clear display, move cursor,
set autoscroll) performs no wait at all. -/
theorem pre_wait_table_conformance (lcd : Lcd) (beh : Beh) (s : S) (text : String)
    (byte : Nat) (bytes : List Nat) (ch : Char) (num : Int) (fnum : Float)
    (b vis blink enable : Bool) (m : Display) (dir : CursorMoveDirection) (pos : Nat) :
    PreWaitOnce lcd.update_screen_time s (Lcd.display_text lcd beh text b s).1 ∧
    PreWaitOnce lcd.update_screen_time s (Lcd.display_byte lcd beh byte b s).1 ∧
    PreWaitOnce lcd.update_screen_time s (Lcd.display_bytes lcd beh bytes b s).1 ∧
    PreWaitOnce lcd.update_screen_time s (Lcd.display_char lcd beh ch b s).1 ∧
    PreWaitOnce lcd.update_screen_time s (Lcd.reset_display lcd beh s).1 ∧
    PreWaitOnce lcd.update_screen_time s (Lcd.set_display_mode lcd beh m s).1 ∧
    PreWaitOnce lcd.update_screen_time s (Lcd.set_cursor_visibility lcd beh vis s).1 ∧
    PreWaitOnce lcd.update_screen_time s (Lcd.set_cursor_blink lcd beh blink s).1 ∧
    PreWaitOnce lcd.update_screen_time s (Lcd.set_cursor_pos lcd beh pos s).1 ∧
    NoWait s (Lcd.display_int lcd beh num b s).1 ∧
    NoWait s (Lcd.display_float lcd beh fnum b s).1 ∧
    NoWait s (Lcd.clear_display beh s).1 ∧
    NoWait s (Lcd.move_cursor_direction beh dir s).1 ∧
    NoWait s (Lcd.set_autoscroll beh enable s).1 := by
  refine ⟨?_, ?_, ?_, ?_, ?_, ?_, ?_, ?_, ?_, ?_, ?_, ?_, ?_, ?_⟩
  · rw [display_text_eq]
    exact preWaitOnce_of_writeCore lcd.update_screen_time beh (Cap.write_str text) b s
  · rw [display_byte_eq]
    exact preWaitOnce_of_writeCore lcd.update_screen_time beh (Cap.write_byte byte) b s
  · rw [display_bytes_eq]
    exact preWaitOnce_of_writeCore lcd.update_screen_time beh (Cap.write_bytes bytes) b s
  · rw [display_char_eq]
    exact preWaitOnce_of_writeCore lcd.update_screen_time beh (Cap.write_char ch) b s
  · rw [reset_display_eq]
    exact preWaitOnce_of_callCap lcd.update_screen_time beh Cap.reset
      LcdError.ResetError s
  · rw [set_display_mode_eq]
    exact preWaitOnce_of_callCap lcd.update_screen_time beh (Cap.set_display m)
      LcdError.DisplayError s
  · rw [set_cursor_visibility_eq]
    exact preWaitOnce_of_callCap lcd.update_screen_time beh _ LcdError.CursorError s
  · rw [set_cursor_blink_eq]
    exact preWaitOnce_of_callCap lcd.update_screen_time beh _ LcdError.CursorError s
  · rw [set_cursor_pos_eq]
    exact preWaitOnce_of_callCap lcd.update_screen_time beh (Cap.set_cursor_pos pos)
      LcdError.CursorError s
  · rw [display_int_eq]
    exact noWait_of_writeCore beh (Cap.write_str (itoaFormat num)) b s
  · rw [display_float_eq]
    exact noWait_of_writeCore beh (Cap.write_str (ryuFormat fnum)) b s
  · rw [clear_display_eq]
    exact noWait_of_callCap beh Cap.clear LcdError.ClearError s
  · rw [move_cursor_direction_eq]
    exact noWait_of_callCap beh _ LcdError.CursorError s
  · rw [set_autoscroll_eq]
    exact noWait_of_callCap beh (Cap.set_autoscroll enable) LcdError.CursorError s

/-- C4: for each write-family command, `clear_display = true` issues exactly
one clear capability call immediately followed by exactly one write-family
capability call, in that order (here under the claim's assumption that both
calls succeed); `clear_display = false` issues the single write-family call
and no clear call. -/
theorem pre_clear_write_order (lcd : Lcd) (beh : Beh) (s : S) (text : String)
    (byte : Nat) (bytes : List Nat) (ch : Char) (num : Int) (fnum : Float)
    (h1 : beh s.idx = none) (h2 : beh (s.idx + 1) = none) :
    (callsOf (Lcd.display_text lcd beh text true s).1.trace
        = callsOf s.trace ++ [Cap.clear, Cap.write_str text] ∧
     callsOf (Lcd.display_text lcd beh text false s).1.trace
        = callsOf s.trace ++ [Cap.write_str text]) ∧
    (callsOf (Lcd.display_byte lcd beh byte true s).1.trace
        = callsOf s.trace ++ [Cap.clear, Cap.write_byte byte] ∧
     callsOf (Lcd.display_byte lcd beh byte false s).1.trace
        = callsOf s.trace ++ [Cap.write_byte byte]) ∧
    (callsOf (Lcd.display_bytes lcd beh bytes true s).1.trace
        = callsOf s.trace ++ [Cap.clear, Cap.write_bytes bytes] ∧
     callsOf (Lcd.display_bytes lcd beh bytes false s).1.trace
        = callsOf s.trace ++ [Cap.write_bytes bytes]) ∧
    (callsOf (Lcd.display_char lcd beh ch true s).1.trace
        = callsOf s.trace ++ [Cap.clear, Cap.write_char ch] ∧
     callsOf (Lcd.display_char lcd beh ch false s).1.trace
        = callsOf s.trace ++ [Cap.write_char ch]) ∧
    (callsOf (Lcd.display_int lcd beh num true s).1.trace
        = callsOf s.trace ++ [Cap.clear, Cap.write_str (itoaFormat num)] ∧
     callsOf (Lcd.display_int lcd beh num false s).1.trace
        = callsOf s.trace ++ [Cap.write_str (itoaFormat num)]) ∧
    (callsOf (Lcd.display_float lcd beh fnum true s).1.trace
        = callsOf s.trace ++ [Cap.clear, Cap.write_str (ryuFormat fnum)] ∧
     callsOf (Lcd.display_float lcd beh fnum false s).1.trace
        = callsOf s.trace ++ [Cap.write_str (ryuFormat fnum)]) := by
  refine ⟨⟨?_, ?_⟩, ⟨?_, ?_⟩, ⟨?_, ?_⟩, ⟨?_, ?_⟩, ⟨?_, ?_⟩, ⟨?_, ?_⟩⟩
  · rw [display_text_eq, writeCore_calls_true _
      (show beh (waitE s lcd.update_screen_time).idx = none from h1)]
    simp
  · rw [display_text_eq, writeCore_calls_false]; simp
  · rw [display_byte_eq, writeCore_calls_true _
      (show beh (waitE s lcd.update_screen_time).idx = none from h1)]
    simp
  · rw [display_byte_eq, writeCore_calls_false]; simp
  · rw [display_bytes_eq, writeCore_calls_true _
      (show beh (waitE s lcd.update_screen_time).idx = none from h1)]
    simp
  · rw [display_bytes_eq, writeCore_calls_false]; simp
  · rw [display_char_eq, writeCore_calls_true _
      (show beh (waitE s lcd.update_screen_time).idx = none from h1)]
    simp
  · rw [display_char_eq, writeCore_calls_false]; simp
  · rw [display_int_eq, writeCore_calls_true _ h1]
  · rw [display_int_eq, writeCore_calls_false]
  · rw [display_float_eq, writeCore_calls_true _ h1]
  · rw [display_float_eq, writeCore_calls_false]

/-- C4 witness: on a never-failing controller, `display_text` with pre-clear
issues exactly a clear then the write, and without pre-clear only the write. -/
theorem pre_clear_write_order_witness :
    callsOf (Lcd.display_text ⟨5⟩ (fun _ => none) "hi" true S.init).1.trace
        = callsOf S.init.trace ++ [Cap.clear, Cap.write_str "hi"] ∧
    callsOf (Lcd.display_text ⟨5⟩ (fun _ => none) "hi" false S.init).1.trace
        = callsOf S.init.trace ++ [Cap.write_str "hi"] :=
  (pre_clear_write_order ⟨5⟩ (fun _ => none) S.init "hi" 1 [1] 'a' 3 1.5 rfl rfl).1

/-- C5: error tag table conformance. A failure of the invoked controller
capability is returned as `Err (tag, cause)` with exactly the §4.3 tag of the
command: `WriteError` for every write-family capability call (with or without
pre-clear), `ClearError` for clear display, `ResetError` for reset display,
`DisplayError` for set display mode, and `CursorError` for set cursor
visibility/blink, move cursor (both directions), set autoscroll, and set
cursor position. `beh` fails the command's first capability call with cause
`c`; `beh'` lets the pre-clear succeed and fails the following write. -/
theorem error_tag_table_conformance (lcd : Lcd) (beh beh' : Beh) (s : S)
    (text : String) (byte : Nat) (bytes : List Nat) (ch : Char) (num : Int)
    (fnum : Float) (m : Display) (vis blink enable : Bool) (pos : Nat) (c : Cause)
    (hc : beh s.idx = some c) (h1 : beh' s.idx = none)
    (h2 : beh' (s.idx + 1) = some c) :
    (Lcd.display_text lcd beh text false s).2 = Except.error (LcdError.WriteError, c) ∧
    (Lcd.display_byte lcd beh byte false s).2 = Except.error (LcdError.WriteError, c) ∧
    (Lcd.display_bytes lcd beh bytes false s).2 = Except.error (LcdError.WriteError, c) ∧
    (Lcd.display_char lcd beh ch false s).2 = Except.error (LcdError.WriteError, c) ∧
    (Lcd.display_int lcd beh num false s).2 = Except.error (LcdError.WriteError, c) ∧
    (Lcd.display_float lcd beh fnum false s).2 = Except.error (LcdError.WriteError, c) ∧
    (Lcd.display_text lcd beh' text true s).2 = Except.error (LcdError.WriteError, c) ∧
    (Lcd.display_byte lcd beh' byte true s).2 = Except.error (LcdError.WriteError, c) ∧
    (Lcd.display_bytes lcd beh' bytes true s).2 = Except.error (LcdError.WriteError, c) ∧
    (Lcd.display_char lcd beh' ch true s).2 = Except.error (LcdError.WriteError, c) ∧
    (Lcd.display_int lcd beh' num true s).2 = Except.error (LcdError.WriteError, c) ∧
    (Lcd.display_float lcd beh' fnum true s).2 = Except.error (LcdError.WriteError, c) ∧
    (Lcd.clear_display beh s).2 = Except.error (LcdError.ClearError, c) ∧
    (Lcd.reset_display lcd beh s).2 = Except.error (LcdError.ResetError, c) ∧
    (Lcd.set_display_mode lcd beh m s).2 = Except.error (LcdError.DisplayError, c) ∧
    (Lcd.set_cursor_visibility lcd beh vis s).2 = Except.error (LcdError.CursorError, c) ∧
    (Lcd.set_cursor_blink lcd beh blink s).2 = Except.error (LcdError.CursorError, c) ∧
    (Lcd.move_cursor_direction beh CursorMoveDirection.Left s).2
        = Except.error (LcdError.CursorError, c) ∧
    (Lcd.move_cursor_direction beh CursorMoveDirection.Right s).2
        = Except.error (LcdError.CursorError, c) ∧
    (Lcd.set_autoscroll beh enable s).2 = Except.error (LcdError.CursorError, c) ∧
    (Lcd.set_cursor_pos lcd beh pos s).2 = Except.error (LcdError.CursorError, c) := by
  refine ⟨?_, ?_, ?_, ?_, ?_, ?_, ?_, ?_, ?_, ?_, ?_, ?_, ?_, ?_, ?_, ?_, ?_, ?_,
    ?_, ?_, ?_⟩
  · simp [display_text_eq, writeCore_false, callCap, hc]
  · simp [display_byte_eq, writeCore_false, callCap, hc]
  · simp [display_bytes_eq, writeCore_false, callCap, hc]
  · simp [display_char_eq, writeCore_false, callCap, hc]
  · simp [display_int_eq, writeCore_false, callCap, hc]
  · simp [display_float_eq, writeCore_false, callCap, hc]
  · rw [display_text_eq, writeCore_true_ok_err _
      (show beh' (waitE s lcd.update_screen_time).idx = none from h1)
      (show beh' ((waitE s lcd.update_screen_time).idx + 1) = some c from h2)]
  · rw [display_byte_eq, writeCore_true_ok_err _
      (show beh' (waitE s lcd.update_screen_time).idx = none from h1)
      (show beh' ((waitE s lcd.update_screen_time).idx + 1) = some c from h2)]
  · rw [display_bytes_eq, writeCore_true_ok_err _
      (show beh' (waitE s lcd.update_screen_time).idx = none from h1)
      (show beh' ((waitE s lcd.update_screen_time).idx + 1) = some c from h2)]
  · rw [display_char_eq, writeCore_true_ok_err _
      (show beh' (waitE s lcd.update_screen_time).idx = none from h1)
      (show beh' ((waitE s lcd.update_screen_time).idx + 1) = some c from h2)]
  · rw [display_int_eq, writeCore_true_ok_err _ h1 h2]
  · rw [display_float_eq, writeCore_true_ok_err _ h1 h2]
  · simp [clear_display_eq, callCap, hc]
  · simp [reset_display_eq, callCap, hc]
  · simp [set_display_mode_eq, callCap, hc]
  · simp [set_cursor_visibility_eq, callCap, hc]
  · simp [set_cursor_blink_eq, callCap, hc]
  · simp [move_cursor_direction_eq, callCap, hc]
  · simp [move_cursor_direction_eq, callCap, hc]
  · simp [set_autoscroll_eq, callCap, hc]
  · simp [set_cursor_pos_eq, callCap, hc]

/-- C5 witness: with a controller failing its first call with cause 3, a
`move_cursor_direction(Left)` failure is tagged `CursorError`, and with a
controller whose second call fails after a successful pre-clear,
`display_text` surfaces `WriteError`. -/
theorem error_tag_table_conformance_witness :
    (Lcd.move_cursor_direction (fun _ => some 3) CursorMoveDirection.Left S.init).2
        = Except.error (LcdError.CursorError, 3) ∧
    (Lcd.display_text ⟨5⟩ (fun i => if i = 0 then none else some 3) "hi" true S.init).2
        = Except.error (LcdError.WriteError, 3) := by
  have h := error_tag_table_conformance ⟨5⟩ (fun _ => some 3)
    (fun i => if i = 0 then none else some 3) S.init "hi" 1 [1] 'a' 3 1.5
    Display.On true true true 0 3 rfl rfl rfl
  exact ⟨h.2.2.2.2.2.2.2.2.2.2.2.2.2.2.2.2.2.1, h.2.2.2.2.2.2.1⟩

/-- C6: session construction always yields the session object; even when the
initialization sequence fails with some error, that error is not part of the
constructor's return value, which is the same session record as on success. -/
theorem construction_always_yields_session (beh : Beh) (ust : Nat) (e : Err)
    (h : (initialize_lcd beh (waitE S.init ust)).2 = Except.error e) :
    (Lcd.new beh ust).2 = { update_screen_time := ust } := rfl

/-- C6 witness: a controller that fails every call makes the initialization
sequence fail at its first step, yet the constructor returns the session. -/
theorem construction_always_yields_session_witness :
    (initialize_lcd (fun _ => some 0) (waitE S.init 7)).2
        = Except.error (LcdError.ClearError, 0) ∧
    (Lcd.new (fun _ => some 0) 7).2 = { update_screen_time := 7 } :=
  ⟨rfl, construction_always_yields_session (fun _ => some 0) 7
    (LcdError.ClearError, 0) rfl⟩

/-- C7: the constructor performs exactly one unconditional wait of
`update_screen_time` milliseconds, placed before the first initialization
transition: its run trace is that wait, immediately followed by the `clear`
call, and contains no other wait. -/
theorem constructor_initial_wait (beh : Beh) (ust : Nat) :
    ∃ rest, (Lcd.new beh ust).1.trace
        = Event.wait ust :: Event.call Cap.clear :: rest ∧
      waitCountOf (Lcd.new beh ust).1.trace = 1 := by
  have hnew : (Lcd.new beh ust).1 = (initialize_lcd beh (waitE S.init ust)).1 := rfl
  obtain ⟨m, hm1, _, htr⟩ := initialize_lcd_trace_shape beh (waitE S.init ust)
  obtain ⟨m', rfl⟩ : ∃ m', m = m' + 1 := ⟨m - 1, by omega⟩
  rw [hnew, htr]
  refine ⟨(((initCaps.drop 1).take m').map Event.call), ?_, ?_⟩
  · simp [waitE, S.init, initCaps, List.take_succ_cons]
  · simp [waitE, S.init, waitCountOf_map_call, waitCountOf_take_map_call]

/-- C8: for every write-family command with pre-clear requested, when the
clear capability call succeeds and the following write capability call fails,
the command returns the write failure (tagged `WriteError`) immediately: the
trace shows the issued clear followed by the failed write and nothing else —
no retry and no rollback of the already-issued clear. -/
theorem pre_clear_success_write_failure (lcd : Lcd) (beh : Beh) (s : S)
    (text : String) (byte : Nat) (bytes : List Nat) (ch : Char) (num : Int)
    (fnum : Float) (c : Cause) (h1 : beh s.idx = none)
    (h2 : beh (s.idx + 1) = some c) :
    Lcd.display_text lcd beh text true s =
      (⟨s.idx + 2, s.trace ++ [Event.wait lcd.update_screen_time,
          Event.call Cap.clear, Event.call (Cap.write_str text)]⟩,
        Except.error (LcdError.WriteError, c)) ∧
    Lcd.display_byte lcd beh byte true s =
      (⟨s.idx + 2, s.trace ++ [Event.wait lcd.update_screen_time,
          Event.call Cap.clear, Event.call (Cap.write_byte byte)]⟩,
        Except.error (LcdError.WriteError, c)) ∧
    Lcd.display_bytes lcd beh bytes true s =
      (⟨s.idx + 2, s.trace ++ [Event.wait lcd.update_screen_time,
          Event.call Cap.clear, Event.call (Cap.write_bytes bytes)]⟩,
        Except.error (LcdError.WriteError, c)) ∧
    Lcd.display_char lcd beh ch true s =
      (⟨s.idx + 2, s.trace ++ [Event.wait lcd.update_screen_time,
          Event.call Cap.clear, Event.call (Cap.write_char ch)]⟩,
        Except.error (LcdError.WriteError, c)) ∧
    Lcd.display_int lcd beh num true s =
      (⟨s.idx + 2, s.trace ++ [Event.call Cap.clear,
          Event.call (Cap.write_str (itoaFormat num))]⟩,
        Except.error (LcdError.WriteError, c)) ∧
    Lcd.display_float lcd beh fnum true s =
      (⟨s.idx + 2, s.trace ++ [Event.call Cap.clear,
          Event.call (Cap.write_str (ryuFormat fnum))]⟩,
        Except.error (LcdError.WriteError, c)) := by
  refine ⟨?_, ?_, ?_, ?_, ?_, ?_⟩
  · rw [display_text_eq, writeCore_true_ok_err _
      (show beh (waitE s lcd.update_screen_time).idx = none from h1)
      (show beh ((waitE s lcd.update_screen_time).idx + 1) = some c from h2)]
    simp
  · rw [display_byte_eq, writeCore_true_ok_err _
      (show beh (waitE s lcd.update_screen_time).idx = none from h1)
      (show beh ((waitE s lcd.update_screen_time).idx + 1) = some c from h2)]
    simp
  · rw [display_bytes_eq, writeCore_true_ok_err _
      (show beh (waitE s lcd.update_screen_time).idx = none from h1)
      (show beh ((waitE s lcd.update_screen_time).idx + 1) = some c from h2)]
    simp
  · rw [display_char_eq, writeCore_true_ok_err _
      (show beh (waitE s lcd.update_screen_time).idx = none from h1)
      (show beh ((waitE s lcd.update_screen_time).idx + 1) = some c from h2)]
    simp
  · rw [display_int_eq, writeCore_true_ok_err _ h1 h2]
  · rw [display_float_eq, writeCore_true_ok_err _ h1 h2]

/-- C8 witness: with the first call succeeding and the second failing with
cause 4, `display_text` with pre-clear leaves the clear issued and returns
the write failure. -/
theorem pre_clear_success_write_failure_witness :
    Lcd.display_text ⟨5⟩ (fun i => if i = 0 then none else some 4) "hi" true S.init =
      (⟨2, [Event.wait 5, Event.call Cap.clear, Event.call (Cap.write_str "hi")]⟩,
        Except.error (LcdError.WriteError, 4)) := by
  have h := (pre_clear_success_write_failure ⟨5⟩
    (fun i => if i = 0 then none else some 4) S.init "hi" 1 [1] 'a' 3 1.5 4
    rfl rfl).1
  simpa [S.init] using h

/-- C9: `display_int` passes to the write-str capability exactly the output
of the integer formatter, and that output is the canonical base-10 rendering
of the argument: digits decoding to `|x|`, no leading zeros (except the
single digit 0), and a leading minus sign exactly for negative values. -/
theorem display_int_canonical (lcd : Lcd) (beh : Beh) (num : Int) (b : Bool)
    (s : S) (h : b = true → beh s.idx = none) :
    callsOf (Lcd.display_int lcd beh num b s).1.trace =
      callsOf s.trace ++ (if b then [Cap.clear] else [])
        ++ [Cap.write_str (itoaFormat num)] ∧
    intCanonical num (itoaFormat num) := by
  constructor
  · cases b with
    | false => rw [display_int_eq, writeCore_calls_false]; simp
    | true => rw [display_int_eq, writeCore_calls_true _ (h rfl)]; simp
  · exact itoaFormat_canon num

/-- C9 witness: at `num = -12` on a never-failing controller with pre-clear,
the clear is followed by the single write of the formatted integer, and the
rendering is canonical. -/
theorem display_int_canonical_witness :
    callsOf (Lcd.display_int ⟨5⟩ (fun _ => none) (-12) true S.init).1.trace =
      callsOf S.init.trace ++ (if true then [Cap.clear] else [])
        ++ [Cap.write_str (itoaFormat (-12))] ∧
    intCanonical (-12) (itoaFormat (-12)) :=
  display_int_canonical ⟨5⟩ (fun _ => none) (-12) true S.init (fun _ => rfl)

/-- C10: for every write-family command with pre-clear requested, when the
clear capability call fails the command returns `Err (ClearError, cause)` —
carrying the clear failure's cause — and the write capability is never
invoked: the trace ends at the failed clear call. -/
theorem pre_clear_failure_clear_tag (lcd : Lcd) (beh : Beh) (s : S)
    (text : String) (byte : Nat) (bytes : List Nat) (ch : Char) (num : Int)
    (fnum : Float) (c : Cause) (h : beh s.idx = some c) :
    Lcd.display_text lcd beh text true s =
      (⟨s.idx + 1, s.trace ++ [Event.wait lcd.update_screen_time,
          Event.call Cap.clear]⟩, Except.error (LcdError.ClearError, c)) ∧
    Lcd.display_byte lcd beh byte true s =
      (⟨s.idx + 1, s.trace ++ [Event.wait lcd.update_screen_time,
          Event.call Cap.clear]⟩, Except.error (LcdError.ClearError, c)) ∧
    Lcd.display_bytes lcd beh bytes true s =
      (⟨s.idx + 1, s.trace ++ [Event.wait lcd.update_screen_time,
          Event.call Cap.clear]⟩, Except.error (LcdError.ClearError, c)) ∧
    Lcd.display_char lcd beh ch true s =
      (⟨s.idx + 1, s.trace ++ [Event.wait lcd.update_screen_time,
          Event.call Cap.clear]⟩, Except.error (LcdError.ClearError, c)) ∧
    Lcd.display_int lcd beh num true s =
      (⟨s.idx + 1, s.trace ++ [Event.call Cap.clear]⟩,
        Except.error (LcdError.ClearError, c)) ∧
    Lcd.display_float lcd beh fnum true s =
      (⟨s.idx + 1, s.trace ++ [Event.call Cap.clear]⟩,
        Except.error (LcdError.ClearError, c)) := by
  refine ⟨?_, ?_, ?_, ?_, ?_, ?_⟩
  · rw [display_text_eq, writeCore_true_clear_err _
      (show beh (waitE s lcd.update_screen_time).idx = some c from h)]
    simp
  · rw [display_byte_eq, writeCore_true_clear_err _
      (show beh (waitE s lcd.update_screen_time).idx = some c from h)]
    simp
  · rw [display_bytes_eq, writeCore_true_clear_err _
      (show beh (waitE s lcd.update_screen_time).idx = some c from h)]
    simp
  · rw [display_char_eq, writeCore_true_clear_err _
      (show beh (waitE s lcd.update_screen_time).idx = some c from h)]
    simp
  · rw [display_int_eq, writeCore_true_clear_err _ h]
  · rw [display_float_eq, writeCore_true_clear_err _ h]

/-- C10 witness: with the clear call failing with cause 6, `display_int`
with pre-clear returns `ClearError` with that cause and never issues the
write. -/
theorem pre_clear_failure_clear_tag_witness :
    Lcd.display_int ⟨5⟩ (fun _ => some 6) 42 true S.init =
      (⟨1, [Event.call Cap.clear]⟩, Except.error (LcdError.ClearError, 6)) := by
  have h := (pre_clear_failure_clear_tag ⟨5⟩ (fun _ => some 6) S.init "hi" 1 [1]
    'a' 42 1.5 6 rfl).2.2.2.2.1
  simpa [S.init] using h

end Lcd1602
